import Mathlib

set_option maxHeartbeats 1000000

/-!
Shallow embedding of the Atrium Move contracts: modules `atrium::identity`,
`atrium::space` and `atrium::subscription`.

Conventions of the embedding:
* Sui addresses and object ids (`address`, `ID`, `UID`) are `Nat`.
* Move `u64` arithmetic aborts the transaction on overflow; this is modelled by
  the checked operations `u64_add` / `u64_mul` in the `Except MoveError` monad.
* `sui::table::Table<K, V>` is an association list `List (Nat × V)`; Move's
  `table::add` aborts when the key is already present, modelled by an explicit
  `contains` check throwing `MoveError.fieldAlreadyExists` at every unguarded
  `add` site.
* `sui::coin::Coin<SUI>` is its value, a `Nat`; `coin::split` after a
  sufficient-balance assertion becomes the pair `(amount, value - amount)`.
* `clock.timestamp_ms()` is an explicit `now : Nat` argument, and
  `ctx.sender()` an explicit `sender : Nat` argument; fresh `object::new` ids
  are explicit `fresh_id : Nat` arguments.
* A Move `abort`/failed `assert!` rolls back the whole transaction, so a
  function returning `.error` leaves every piece of state unchanged; only the
  `.ok` payload carries updated state.
-/

/-- Outcome of an aborted Move call: an `abort` with an error code declared in
the aborting module, an arithmetic overflow, a `table::add` on a present key,
or `option::destroy_some` on `none`. -/
inductive MoveError where
  | abort (code : Nat)
  | arithOverflow
  | fieldAlreadyExists
  | invariantViolation
  deriving Repr, DecidableEq

/-- Largest value of a Move `u64`. -/
def U64_MAX : Nat := 18446744073709551615

/-- Move `u64` addition: aborts on overflow. -/
def u64_add (a b : Nat) : Except MoveError Nat :=
  if a + b ≤ U64_MAX then .ok (a + b) else .error .arithOverflow

/-- Move `u64` multiplication: aborts on overflow. -/
def u64_mul (a b : Nat) : Except MoveError Nat :=
  if a * b ≤ U64_MAX then .ok (a * b) else .error .arithOverflow

/-- Move `std::option::destroy_some`: aborts when the option is `none`. -/
def destroy_some {α : Type} : Option α → Except MoveError α
  | some a => .ok a
  | none => .error .invariantViolation

namespace table

/-- `sui::table::Table::contains`. -/
def contains {α : Type} (t : List (Nat × α)) (k : Nat) : Bool :=
  t.any (fun p => p.1 == k)

/-- `sui::table::Table::borrow` (partial in Move; totalised with `Option`). -/
def borrow {α : Type} (t : List (Nat × α)) (k : Nat) : Option α :=
  Option.map Prod.snd (t.find? (fun p => p.1 == k))

/-- `sui::table::Table::add`, at a call site where the key is known absent. -/
def add {α : Type} (t : List (Nat × α)) (k : Nat) (v : α) : List (Nat × α) :=
  (k, v) :: t

/-- `sui::table::Table::remove`. -/
def remove {α : Type} (t : List (Nat × α)) (k : Nat) : List (Nat × α) :=
  t.filter (fun p => p.1 != k)

/-- In-place update through `borrow_mut`: rewrite the value stored at `k`. -/
def modify {α : Type} (t : List (Nat × α)) (k : Nat) (f : α → α) : List (Nat × α) :=
  t.map (fun p => if p.1 == k then (p.1, f p.2) else p)

end table

/-- `atrium::identity::Identity`. -/
structure Identity where
  id : Nat
  owner : Nat
  username : String
  bio : String
  avatar_blob_id : Option String
  image_blob_id : String
  created_at : Nat
  is_creator : Bool
  deriving Repr, DecidableEq

/-- `atrium::identity::IdentityRegistry`: `identities` maps address to
Identity object id. -/
structure IdentityRegistry where
  identities : List (Nat × Nat)
  total_identities : Nat
  total_creators : Nat
  deriving Repr, DecidableEq

/-- `atrium::space::Space`. -/
structure Space where
  id : Nat
  name : String
  description : String
  cover_image : String
  config_quilt : String
  video_blob_ids : List String
  subscription_price : Nat
  creator : Nat
  marketplace_kiosk_id : Nat
  created_at : Nat
  updated_at : Nat
  deriving Repr, DecidableEq

/-- `atrium::space::SpaceOwnership`. -/
structure SpaceOwnership where
  id : Nat
  space_id : Nat
  deriving Repr, DecidableEq

/-- `atrium::space::FanAvatar`. -/
structure FanAvatar where
  owner : Nat
  avatar_blob_id : String
  deriving Repr, DecidableEq

/-- `atrium::space::FanRegistry`: `fans` maps space id to a table from fan
address to `FanAvatar`. -/
structure FanRegistry where
  fans : List (Nat × List (Nat × FanAvatar))
  deriving Repr, DecidableEq

/-- `atrium::space::ContentAdded` event payload, the only effect of
`record_content`. -/
structure ContentAdded where
  space_id : Nat
  blob_object_id : Nat
  blob_id : String
  content_type : Nat
  title : String
  description : String
  encrypted : Bool
  price : Nat
  tags : List String
  creator : Nat
  created_at : Nat
  deriving Repr, DecidableEq

/-- `atrium::subscription::Subscription`. -/
structure Subscription where
  id : Nat
  space_id : Nat
  subscriber : Nat
  subscribed_at : Nat
  expires_at : Nat
  duration_days : Nat
  deriving Repr, DecidableEq

/-- `atrium::subscription::SubscriptionRegistry`: `subscriptions` is the
nested table space id → (subscriber address → Subscription object id). -/
structure SubscriptionRegistry where
  subscriptions : List (Nat × List (Nat × Nat))
  total_subscriptions : Nat
  active_subscriptions : Nat
  deriving Repr, DecidableEq

namespace identity

def EIdentityAlreadyExists : Nat := 0
def ENotIdentityOwner : Nat := 1
def EImageRequired : Nat := 2

/-- `atrium::identity::mint_identity`. -/
def mint_identity (registry : IdentityRegistry) (username bio avatar_blob_id image_blob_id : String)
    (now sender fresh_id : Nat) : Except MoveError (Identity × IdentityRegistry) := do
  if table.contains registry.identities sender then
    throw (.abort EIdentityAlreadyExists)
  if String.isEmpty image_blob_id then
    throw (.abort EImageRequired)
  let avatar_opt : Option String :=
    if String.isEmpty avatar_blob_id then none else some avatar_blob_id
  let ident : Identity :=
    { id := fresh_id, owner := sender, username, bio,
      avatar_blob_id := avatar_opt, image_blob_id,
      created_at := now, is_creator := false }
  if table.contains registry.identities sender then throw .fieldAlreadyExists
  let total ← u64_add registry.total_identities 1
  pure (ident,
    { registry with
      identities := table.add registry.identities sender fresh_id,
      total_identities := total })

/-- `atrium::identity::bind_avatar`. -/
def bind_avatar (ident : Identity) (avatar_blob_id : String) (sender : Nat) :
    Except MoveError Identity := do
  if ident.owner != sender then throw (.abort ENotIdentityOwner)
  pure { ident with avatar_blob_id := some avatar_blob_id }

/-- `atrium::identity::increment_creator_count` (package-internal). -/
def increment_creator_count (registry : IdentityRegistry) : Except MoveError IdentityRegistry := do
  let c ← u64_add registry.total_creators 1
  pure { registry with total_creators := c }

end identity

namespace space

def EInsufficientPayment : Nat := 0
def ENotOwner : Nat := 1

/-- `atrium::space::subscription_price`. -/
def subscription_price (sp : Space) : Nat := sp.subscription_price

/-- `atrium::space::get_space_ownership_space_id`. -/
def get_space_ownership_space_id (ownership : SpaceOwnership) : Nat := ownership.space_id

/-- `atrium::space::update_space_config`. -/
def update_space_config (sp : Space) (ownership : SpaceOwnership)
    (new_name new_description new_cover_image new_config_quilt : Option String)
    (new_subscription_price : Option Nat) (now : Nat) : Except MoveError Space := do
  if ownership.space_id != sp.id then throw (.abort ENotOwner)
  let sp1 := match new_name with | some v => { sp with name := v } | none => sp
  let sp2 := match new_description with | some v => { sp1 with description := v } | none => sp1
  let sp3 := match new_cover_image with | some v => { sp2 with cover_image := v } | none => sp2
  let sp4 := match new_config_quilt with | some v => { sp3 with config_quilt := v } | none => sp3
  let sp5 := match new_subscription_price with
    | some v => { sp4 with subscription_price := v }
    | none => sp4
  pure { sp5 with updated_at := now }

/-- `atrium::space::add_fan_avatar` (package-internal; overwrite semantics). -/
def add_fan_avatar (fan_registry : FanRegistry) (sp : Space) (fan_address : Nat)
    (avatar_blob_id : String) : FanRegistry :=
  let space_id := sp.id
  let fan_avatar : FanAvatar := { owner := fan_address, avatar_blob_id }
  let fans0 :=
    if !(table.contains fan_registry.fans space_id) then
      table.add fan_registry.fans space_id []
    else fan_registry.fans
  let fans1 := table.modify fans0 space_id (fun space_fans =>
    let sf :=
      if table.contains space_fans fan_address then table.remove space_fans fan_address
      else space_fans
    table.add sf fan_address fan_avatar)
  { fan_registry with fans := fans1 }

/-- `atrium::space::add_video`. -/
def add_video (sp : Space) (ownership : SpaceOwnership) (video_blob_id : String) (now : Nat) :
    Except MoveError Space := do
  if ownership.space_id != sp.id then throw (.abort ENotOwner)
  pure { sp with video_blob_ids := sp.video_blob_ids ++ [video_blob_id], updated_at := now }

/-- `atrium::space::record_content`: owner-gated, emits `ContentAdded` and
mutates nothing. -/
def record_content (sp : Space) (ownership : SpaceOwnership) (blob_object_id : Nat)
    (blob_id : String) (content_type : Nat) (title description : String) (encrypted : Bool)
    (price : Nat) (tags : List String) (now sender : Nat) : Except MoveError ContentAdded := do
  if ownership.space_id != sp.id then throw (.abort ENotOwner)
  pure { space_id := sp.id, blob_object_id, blob_id, content_type, title, description,
         encrypted, price, tags, creator := sender, created_at := now }

end space

namespace subscription

def EInsufficientPayment : Nat := 0
def ENoIdentity : Nat := 1
def ENoAvatar : Nat := 2
def EAlreadySubscribed : Nat := 3
def ENotSubscriber : Nat := 5
def ENotOwner : Nat := 6

def ONE_DAY_MS : Nat := 86400000

/-- `atrium::subscription::is_subscribed_internal`. -/
def is_subscribed_internal (registry : SubscriptionRegistry)
    (subscriber space_kiosk_id : Nat) : Bool :=
  if !(table.contains registry.subscriptions space_kiosk_id) then false
  else
    match table.borrow registry.subscriptions space_kiosk_id with
    | some space_subs => table.contains space_subs subscriber
    | none => false

/-- `atrium::subscription::is_subscribed` (the clock argument is unused in the
source). -/
def is_subscribed (registry : SubscriptionRegistry) (subscriber space_kiosk_id : Nat)
    (_clock : Nat) : Bool :=
  is_subscribed_internal registry subscriber space_kiosk_id

/-- `atrium::subscription::expires_at`. -/
def expires_at (s : Subscription) : Nat := s.expires_at

/-- `atrium::subscription::is_expired`. -/
def is_expired (s : Subscription) (now : Nat) : Bool := decide (s.expires_at < now)

/-- `atrium::subscription::create_creator_subscription`. -/
def create_creator_subscription (registry : SubscriptionRegistry) (sp : Space) (creator : Nat)
    (now fresh_id : Nat) : Except MoveError (Subscription × SubscriptionRegistry) := do
  let space_id := sp.id
  let s : Subscription :=
    { id := fresh_id, space_id, subscriber := creator, subscribed_at := now,
      expires_at := 18446744073709551615, duration_days := 0 }
  let subs0 :=
    if !(table.contains registry.subscriptions space_id) then
      table.add registry.subscriptions space_id []
    else registry.subscriptions
  let space_subs := (table.borrow subs0 space_id).getD []
  if table.contains space_subs creator then throw .fieldAlreadyExists
  let subs1 := table.modify subs0 space_id (fun inner => table.add inner creator fresh_id)
  let total ← u64_add registry.total_subscriptions 1
  let active ← u64_add registry.active_subscriptions 1
  pure (s, { registry with
    subscriptions := subs1, total_subscriptions := total, active_subscriptions := active })

/-- `atrium::subscription::subscribe`. Returns the new `Subscription`, the
split coin holding the charged amount, the remaining coin (the change), and
the updated registries. -/
def subscribe (registry : SubscriptionRegistry) (fan_registry : FanRegistry) (sp : Space)
    (ident : Identity) (payment : Nat) (duration_days : Nat) (now sender fresh_id : Nat) :
    Except MoveError (Subscription × Nat × Nat × SubscriptionRegistry × FanRegistry) := do
  let space_id := sp.id
  if ident.owner != sender then throw (.abort ENoIdentity)
  if !ident.avatar_blob_id.isSome then throw (.abort ENoAvatar)
  if is_subscribed_internal registry sender space_id then throw (.abort EAlreadySubscribed)
  let total_price ← u64_mul (space.subscription_price sp) duration_days
  if payment < total_price then throw (.abort EInsufficientPayment)
  let payment_amount := total_price
  let change := payment - total_price
  let current_time := now
  let ext ← u64_mul duration_days ONE_DAY_MS
  let expires ← u64_add current_time ext
  let s : Subscription :=
    { id := fresh_id, space_id, subscriber := sender, subscribed_at := current_time,
      expires_at := expires, duration_days }
  let subs0 :=
    if !(table.contains registry.subscriptions space_id) then
      table.add registry.subscriptions space_id []
    else registry.subscriptions
  let space_subs := (table.borrow subs0 space_id).getD []
  if table.contains space_subs sender then throw .fieldAlreadyExists
  let subs1 := table.modify subs0 space_id (fun inner => table.add inner sender fresh_id)
  let total ← u64_add registry.total_subscriptions 1
  let active ← u64_add registry.active_subscriptions 1
  let avatar ← destroy_some ident.avatar_blob_id
  let fr := space.add_fan_avatar fan_registry sp sender avatar
  pure (s, payment_amount, change,
    { registry with
      subscriptions := subs1, total_subscriptions := total, active_subscriptions := active },
    fr)

/-- `atrium::subscription::renew_subscription`. The registry argument is
unused in the source. Returns the renewed subscription, the split coin
holding the charged amount, and the remaining coin. -/
def renew_subscription (s : Subscription) (payment : Nat) (sp : Space)
    (additional_days now sender : Nat) : Except MoveError (Subscription × Nat × Nat) := do
  if s.subscriber != sender then throw (.abort ENotSubscriber)
  let total_price ← u64_mul (space.subscription_price sp) additional_days
  if payment < total_price then throw (.abort EInsufficientPayment)
  let payment_amount := total_price
  let change := payment - total_price
  let current_time := now
  let extension ← u64_mul additional_days ONE_DAY_MS
  let new_expires ←
    if s.expires_at < current_time then u64_add current_time extension
    else u64_add s.expires_at extension
  let new_duration ← u64_add s.duration_days additional_days
  pure ({ s with expires_at := new_expires, duration_days := new_duration },
    payment_amount, change)

/-- `atrium::subscription::seal_approve_as_creator`. -/
def seal_approve_as_creator (sp : Space) (ownership : SpaceOwnership) :
    Except MoveError Unit := do
  if space.get_space_ownership_space_id ownership != sp.id then throw (.abort ENotOwner)
  pure ()

/-- `atrium::subscription::seal_approve_as_subscriber`. -/
def seal_approve_as_subscriber (sp : Space) (s : Subscription) (now sender : Nat) :
    Except MoveError Unit := do
  let space_id := sp.id
  if s.subscriber != sender then throw (.abort ENotSubscriber)
  if s.space_id != space_id then throw (.abort ENotSubscriber)
  if is_expired s now then throw (.abort ENotSubscriber)
  pure ()

end subscription

/-! Reduction lemmas for the `Except MoveError` monad and the checked `u64`
operations, used throughout the verification below. -/

theorem ok_bind {α β : Type} (a : α) (f : α → Except MoveError β) :
    (Except.ok a : Except MoveError α) >>= f = f a := rfl

theorem error_bind {α β : Type} (e : MoveError) (f : α → Except MoveError β) :
    (Except.error e : Except MoveError α) >>= f = Except.error e := rfl

theorem pure_eq_ok {α : Type} (a : α) : (pure a : Except MoveError α) = Except.ok a := rfl

theorem throw_eq_error {α : Type} (e : MoveError) :
    (throw e : Except MoveError α) = Except.error e := rfl

theorem u64_add_ok {a b : Nat} (h : a + b ≤ U64_MAX) : u64_add a b = .ok (a + b) := by
  simp [u64_add, h]

theorem u64_mul_ok {a b : Nat} (h : a * b ≤ U64_MAX) : u64_mul a b = .ok (a * b) := by
  simp [u64_mul, h]

/-- Exact success equation for `renew_subscription`, assuming the caller is the
subscriber, the payment covers the price and no `u64` overflow occurs. -/
theorem renew_subscription_ok (s : Subscription) (sp : Space)
    (payment additional_days now sender : Nat)
    (hsub : s.subscriber = sender)
    (hpay : sp.subscription_price * additional_days ≤ payment)
    (hprice : sp.subscription_price * additional_days ≤ U64_MAX)
    (hext : additional_days * subscription.ONE_DAY_MS ≤ U64_MAX)
    (hnow : now + additional_days * subscription.ONE_DAY_MS ≤ U64_MAX)
    (hold : s.expires_at + additional_days * subscription.ONE_DAY_MS ≤ U64_MAX)
    (hdur : s.duration_days + additional_days ≤ U64_MAX) :
    subscription.renew_subscription s payment sp additional_days now sender =
      .ok ({ s with
              expires_at :=
                if s.expires_at < now then now + additional_days * subscription.ONE_DAY_MS
                else s.expires_at + additional_days * subscription.ONE_DAY_MS,
              duration_days := s.duration_days + additional_days },
            sp.subscription_price * additional_days,
            payment - sp.subscription_price * additional_days) := by
  simp only [subscription.renew_subscription, space.subscription_price,
    u64_mul_ok hprice, u64_mul_ok hext, ok_bind, hsub, bne_self_eq_false,
    Bool.false_eq_true, if_false, Nat.not_lt.mpr hpay]
  split
  · simp [ok_bind, u64_add_ok hnow, u64_add_ok hdur, pure_eq_ok]
  · simp [ok_bind, u64_add_ok hold, u64_add_ok hdur, pure_eq_ok]

/-- C1: `renew_subscription`, called by the subscriber with a payment covering
`space.subscription_price × additional_days`, sets the new `expires_at` to
`now + additional_days × ONE_DAY` when the subscription is already expired
(`expires_at < now`), and to the old `expires_at + additional_days × ONE_DAY`
otherwise; consequently, for an active subscription two successive renewals by
`d` days advance `expires_at` by exactly `2×d×ONE_DAY`, and for an expired one
a renewal yields `expires_at = now + d×ONE_DAY`. (Hypotheses beyond the
claim's own: the `u64` arithmetic does not overflow.) -/
theorem c1_renew_subscription_extension
    (s : Subscription) (sp : Space) (payment payment2 additional_days now sender : Nat)
    (hsub : s.subscriber = sender)
    (hpay : sp.subscription_price * additional_days ≤ payment)
    (hpay2 : sp.subscription_price * additional_days ≤ payment2)
    (hprice : sp.subscription_price * additional_days ≤ U64_MAX)
    (hext : additional_days * subscription.ONE_DAY_MS ≤ U64_MAX)
    (hnow : now + additional_days * subscription.ONE_DAY_MS ≤ U64_MAX)
    (hold2 : s.expires_at + 2 * (additional_days * subscription.ONE_DAY_MS) ≤ U64_MAX)
    (hdur2 : s.duration_days + additional_days + additional_days ≤ U64_MAX) :
    (subscription.renew_subscription s payment sp additional_days now sender =
      .ok ({ s with
              expires_at :=
                if s.expires_at < now then now + additional_days * subscription.ONE_DAY_MS
                else s.expires_at + additional_days * subscription.ONE_DAY_MS,
              duration_days := s.duration_days + additional_days },
            sp.subscription_price * additional_days,
            payment - sp.subscription_price * additional_days))
    ∧ (¬ s.expires_at < now →
        ∃ r2 : Subscription × Nat × Nat,
          subscription.renew_subscription
            { s with
              expires_at := s.expires_at + additional_days * subscription.ONE_DAY_MS,
              duration_days := s.duration_days + additional_days }
            payment2 sp additional_days now sender = .ok r2 ∧
          r2.1.expires_at = s.expires_at + 2 * (additional_days * subscription.ONE_DAY_MS))
    ∧ (s.expires_at < now →
        ∃ r1 : Subscription × Nat × Nat,
          subscription.renew_subscription s payment sp additional_days now sender = .ok r1 ∧
          r1.1.expires_at = now + additional_days * subscription.ONE_DAY_MS) := by
  have hold1 : s.expires_at + additional_days * subscription.ONE_DAY_MS ≤ U64_MAX := by omega
  have hdur1 : s.duration_days + additional_days ≤ U64_MAX := by omega
  have h1 := renew_subscription_ok s sp payment additional_days now sender hsub hpay hprice
    hext hnow hold1 hdur1
  refine ⟨h1, ?_, ?_⟩
  · intro hact
    have h2 := renew_subscription_ok
      { s with
        expires_at := s.expires_at + additional_days * subscription.ONE_DAY_MS,
        duration_days := s.duration_days + additional_days }
      sp payment2 additional_days now sender hsub hpay2 hprice hext hnow
      (by simp only []; omega) (by simp only []; omega)
    refine ⟨_, h2, ?_⟩
    have hcond : ¬ (s.expires_at + additional_days * subscription.ONE_DAY_MS < now) := by omega
    simp only [hcond, if_false]
    omega
  · intro hexp
    exact ⟨_, h1, by simp [hexp]⟩

/-- Witness for C1 at concrete inputs: subscriber 7 renews an expired
subscription (expired at 500, now 1000) to a space costing 100 per day by 2
days, paying 200; the new expiry is `now + 2×ONE_DAY`. -/
theorem c1_renew_subscription_extension_witness :
    ∃ r1 : Subscription × Nat × Nat,
      subscription.renew_subscription
        { id := 1, space_id := 2, subscriber := 7, subscribed_at := 0, expires_at := 500,
          duration_days := 3 }
        200
        { id := 2, name := "s", description := "d", cover_image := "c", config_quilt := "q",
          video_blob_ids := [], subscription_price := 100, creator := 9,
          marketplace_kiosk_id := 3, created_at := 0, updated_at := 0 }
        2 1000 7 = .ok r1 ∧
      r1.1.expires_at = 1000 + 2 * subscription.ONE_DAY_MS :=
  (c1_renew_subscription_extension
    { id := 1, space_id := 2, subscriber := 7, subscribed_at := 0, expires_at := 500,
      duration_days := 3 }
    { id := 2, name := "s", description := "d", cover_image := "c", config_quilt := "q",
      video_blob_ids := [], subscription_price := 100, creator := 9,
      marketplace_kiosk_id := 3, created_at := 0, updated_at := 0 }
    200 200 2 1000 7 rfl (by decide) (by decide) (by decide) (by decide)
    (by decide) (by decide) (by decide)).2.2 (by decide)

/-- Closed form of the subscriber-path gate check: it succeeds exactly when
all three conditions hold, and aborts with `ENotSubscriber` otherwise. -/
theorem seal_approve_as_subscriber_eq (sp : Space) (s : Subscription) (now sender : Nat) :
    subscription.seal_approve_as_subscriber sp s now sender =
      (if s.subscriber = sender ∧ s.space_id = sp.id ∧ ¬ s.expires_at < now then .ok ()
       else .error (.abort subscription.ENotSubscriber)) := by
  simp only [subscription.seal_approve_as_subscriber, subscription.is_expired]
  by_cases h1 : s.subscriber = sender <;> by_cases h2 : s.space_id = sp.id <;>
    by_cases h3 : s.expires_at < now <;>
    simp [h1, h2, h3, ok_bind, error_bind, throw_eq_error, pure_eq_ok]

/-- C2: `seal_approve_as_subscriber` succeeds iff the subscription's
subscriber is the requester, its `space_id` matches the target space, and it
is not expired; any failing condition yields `NotSubscriber`. In particular a
non-expired subscription for space A held by the correct principal is refused
against any distinct space B. -/
theorem c2_seal_approve_as_subscriber_gate (spA spB : Space) (s : Subscription)
    (now sender : Nat) :
    (subscription.seal_approve_as_subscriber spA s now sender = .ok () ↔
      (s.subscriber = sender ∧ s.space_id = spA.id ∧ ¬ s.expires_at < now))
    ∧ (¬ (s.subscriber = sender ∧ s.space_id = spA.id ∧ ¬ s.expires_at < now) →
        subscription.seal_approve_as_subscriber spA s now sender =
          .error (.abort subscription.ENotSubscriber))
    ∧ (s.subscriber = sender → s.space_id = spA.id → ¬ s.expires_at < now →
        spB.id ≠ spA.id →
        subscription.seal_approve_as_subscriber spB s now sender =
          .error (.abort subscription.ENotSubscriber)) := by
  refine ⟨?_, ?_, ?_⟩
  · rw [seal_approve_as_subscriber_eq]
    split
    · simp_all
    · simp_all
  · intro h
    rw [seal_approve_as_subscriber_eq, if_neg h]
  · intro h1 h2 h3 hne
    rw [seal_approve_as_subscriber_eq]
    have : ¬ (s.subscriber = sender ∧ s.space_id = spB.id ∧ ¬ s.expires_at < now) := by
      rintro ⟨-, hB, -⟩
      exact hne (by rw [← hB, h2])
    rw [if_neg this]

/-- Witness for C2: a live subscription for space 2 held by principal 7 is
refused against space 3 with `ENotSubscriber`. -/
theorem c2_seal_approve_as_subscriber_gate_witness :
    subscription.seal_approve_as_subscriber
      { id := 3, name := "b", description := "d", cover_image := "c", config_quilt := "q",
        video_blob_ids := [], subscription_price := 50, creator := 8,
        marketplace_kiosk_id := 4, created_at := 0, updated_at := 0 }
      { id := 1, space_id := 2, subscriber := 7, subscribed_at := 0, expires_at := 5000,
        duration_days := 3 }
      1000 7 = .error (.abort subscription.ENotSubscriber) :=
  (c2_seal_approve_as_subscriber_gate
    { id := 2, name := "a", description := "d", cover_image := "c", config_quilt := "q",
      video_blob_ids := [], subscription_price := 50, creator := 8,
      marketplace_kiosk_id := 4, created_at := 0, updated_at := 0 }
    { id := 3, name := "b", description := "d", cover_image := "c", config_quilt := "q",
      video_blob_ids := [], subscription_price := 50, creator := 8,
      marketplace_kiosk_id := 4, created_at := 0, updated_at := 0 }
    { id := 1, space_id := 2, subscriber := 7, subscribed_at := 0, expires_at := 5000,
      duration_days := 3 }
    1000 7).2.2 rfl rfl (by decide) (by decide)

/-- An `Except` value that is no error is a success. -/
theorem ne_error_ok {α : Type} (x : Except MoveError α) (h : ∀ e, x ≠ .error e) :
    ∃ a, x = .ok a := by
  cases x with
  | ok a => exact ⟨a, rfl⟩
  | error e => exact absurd rfl (h e)

/-- C5: every operation guarded by the `SpaceOwnership` capability —
`update_space_config`, `add_video`, `record_content` and the owner-path gate
check `seal_approve_as_creator` — aborts with its module's `ENotOwner` code
whenever `ownership.space_id` differs from the space's id, and proceeds when
they are equal. -/
theorem c5_ownership_gate (sp : Space) (ownership : SpaceOwnership)
    (nn nd nc nq : Option String) (np : Option Nat) (video : String)
    (bo : Nat) (blob : String) (ct : Nat) (title descr : String) (enc : Bool)
    (price : Nat) (tags : List String) (now sender : Nat) :
    (ownership.space_id ≠ sp.id →
      space.update_space_config sp ownership nn nd nc nq np now =
        .error (.abort space.ENotOwner) ∧
      space.add_video sp ownership video now = .error (.abort space.ENotOwner) ∧
      space.record_content sp ownership bo blob ct title descr enc price tags now sender =
        .error (.abort space.ENotOwner) ∧
      subscription.seal_approve_as_creator sp ownership =
        .error (.abort subscription.ENotOwner))
    ∧ (ownership.space_id = sp.id →
      (∃ sp2, space.update_space_config sp ownership nn nd nc nq np now = .ok sp2) ∧
      (∃ sp2, space.add_video sp ownership video now = .ok sp2) ∧
      (∃ ev, space.record_content sp ownership bo blob ct title descr enc price tags
        now sender = .ok ev) ∧
      subscription.seal_approve_as_creator sp ownership = .ok ()) := by
  constructor
  · intro h
    refine ⟨?_, ?_, ?_, ?_⟩ <;>
      simp [space.update_space_config, space.add_video, space.record_content,
        subscription.seal_approve_as_creator, space.get_space_ownership_space_id,
        h, throw_eq_error, error_bind]
  · intro h
    refine ⟨ne_error_ok _ fun e => ?_, ne_error_ok _ fun e => ?_,
      ne_error_ok _ fun e => ?_, ?_⟩ <;>
      simp [space.update_space_config, space.add_video, space.record_content,
        subscription.seal_approve_as_creator, space.get_space_ownership_space_id,
        h, ok_bind, pure_eq_ok]

/-- Witness for C5: a capability for space 9 is refused by all four operations
on space 2. -/
theorem c5_ownership_gate_witness :
    space.add_video
      { id := 2, name := "s", description := "d", cover_image := "c", config_quilt := "q",
        video_blob_ids := [], subscription_price := 100, creator := 9,
        marketplace_kiosk_id := 3, created_at := 0, updated_at := 0 }
      { id := 11, space_id := 9 } "v" 42 = .error (.abort space.ENotOwner) ∧
    subscription.seal_approve_as_creator
      { id := 2, name := "s", description := "d", cover_image := "c", config_quilt := "q",
        video_blob_ids := [], subscription_price := 100, creator := 9,
        marketplace_kiosk_id := 3, created_at := 0, updated_at := 0 }
      { id := 11, space_id := 9 } = .error (.abort subscription.ENotOwner) := by
  have h := (c5_ownership_gate
    { id := 2, name := "s", description := "d", cover_image := "c", config_quilt := "q",
      video_blob_ids := [], subscription_price := 100, creator := 9,
      marketplace_kiosk_id := 3, created_at := 0, updated_at := 0 }
    { id := 11, space_id := 9 } none none none none none "v" 0 "b" 1 "t" "d" false 0 [] 42 7).1
    (by decide)
  exact ⟨h.2.1, h.2.2.2⟩

/-- C9: `renew_subscription` never compares the passed space against the
subscription's own `space_id`: for any space whose id differs from
`subscription.space_id`, if the caller is the subscriber and the payment
covers the passed space's price, the renewal succeeds, charges the passed
space's `subscription_price × additional_days`, and extends `expires_at`,
leaving `space_id` pointing at the original space. -/
theorem c9_renew_subscription_no_space_check
    (s : Subscription) (sp : Space) (payment additional_days now sender : Nat)
    (_hmismatch : sp.id ≠ s.space_id)
    (hsub : s.subscriber = sender)
    (hpay : sp.subscription_price * additional_days ≤ payment)
    (hprice : sp.subscription_price * additional_days ≤ U64_MAX)
    (hext : additional_days * subscription.ONE_DAY_MS ≤ U64_MAX)
    (hnow : now + additional_days * subscription.ONE_DAY_MS ≤ U64_MAX)
    (hold : s.expires_at + additional_days * subscription.ONE_DAY_MS ≤ U64_MAX)
    (hdur : s.duration_days + additional_days ≤ U64_MAX) :
    ∃ r : Subscription × Nat × Nat,
      subscription.renew_subscription s payment sp additional_days now sender = .ok r ∧
      r.2.1 = sp.subscription_price * additional_days ∧
      r.1.space_id = s.space_id ∧
      r.1.expires_at =
        (if s.expires_at < now then now + additional_days * subscription.ONE_DAY_MS
         else s.expires_at + additional_days * subscription.ONE_DAY_MS) :=
  ⟨_, renew_subscription_ok s sp payment additional_days now sender hsub hpay hprice
    hext hnow hold hdur, rfl, rfl, rfl⟩

/-- Witness for C9: a subscription for space 2 is renewed against a cheaper
space 3 (price 1 per day), charging 2 instead of space 2's price. -/
theorem c9_renew_subscription_no_space_check_witness :
    ∃ r : Subscription × Nat × Nat,
      subscription.renew_subscription
        { id := 1, space_id := 2, subscriber := 7, subscribed_at := 0, expires_at := 5000,
          duration_days := 3 }
        10
        { id := 3, name := "b", description := "d", cover_image := "c", config_quilt := "q",
          video_blob_ids := [], subscription_price := 1, creator := 8,
          marketplace_kiosk_id := 4, created_at := 0, updated_at := 0 }
        2 1000 7 = .ok r ∧
      r.2.1 = 1 * 2 ∧
      r.1.space_id = 2 ∧
      r.1.expires_at = (if (5000 : Nat) < 1000 then 1000 + 2 * subscription.ONE_DAY_MS
        else 5000 + 2 * subscription.ONE_DAY_MS) :=
  c9_renew_subscription_no_space_check
    { id := 1, space_id := 2, subscriber := 7, subscribed_at := 0, expires_at := 5000,
      duration_days := 3 }
    { id := 3, name := "b", description := "d", cover_image := "c", config_quilt := "q",
      video_blob_ids := [], subscription_price := 1, creator := 8,
      marketplace_kiosk_id := 4, created_at := 0, updated_at := 0 }
    10 2 1000 7 (by decide) rfl (by decide) (by decide) (by decide) (by decide)
    (by decide) (by decide)

/-- C10: `mint_identity` maps an empty avatar string to `none`, but
`bind_avatar` performs no emptiness check: an owner binding any string —
including the empty string — gets `avatar_blob_id = some s`, and the bound
identity then satisfies the avatar precondition checked by `subscribe`
(`avatar_blob_id.isSome`). -/
theorem c10_bind_avatar_empty_allowed
    (registry : IdentityRegistry) (username bio image : String)
    (now sender fresh_id : Nat) (ident : Identity) (s : String)
    (hown : ident.owner = sender) :
    (∀ ident2 reg2,
      identity.mint_identity registry username bio "" image now sender fresh_id =
        .ok (ident2, reg2) → ident2.avatar_blob_id = none)
    ∧ identity.bind_avatar ident s sender = .ok { ident with avatar_blob_id := some s }
    ∧ (∀ r, identity.bind_avatar ident "" sender = .ok r →
        r.avatar_blob_id.isSome = true) := by
  refine ⟨?_, ?_, ?_⟩
  · intro ident2 reg2 h
    by_cases hc : table.contains registry.identities sender = true
    · simp [identity.mint_identity, hc, throw_eq_error, error_bind] at h
    · by_cases hi : String.isEmpty image = true
      · simp [identity.mint_identity, hc, hi, Bool.not_eq_true, throw_eq_error, error_bind,
          ok_bind] at h
      · simp only [identity.mint_identity, hc, hi, Bool.not_eq_true, Bool.false_eq_true,
          if_false, ok_bind, throw_eq_error, error_bind, u64_add, pure_eq_ok,
          String.isEmpty_iff] at h
        split at h
        · simp only [ok_bind, Except.ok.injEq, Prod.mk.injEq] at h
          rw [← h.1]
          simp
        · simp only [error_bind] at h
          exact absurd h (by simp)
  · simp [identity.bind_avatar, hown, ok_bind, pure_eq_ok]
  · intro r h
    simp [identity.bind_avatar, hown, ok_bind, pure_eq_ok] at h
    rw [← h]
    simp

/-- Witness for C10: principal 7 mints with an empty avatar (getting `none`),
then binds the empty string and ends with `some ""`. -/
theorem c10_bind_avatar_empty_allowed_witness :
    (∀ ident2 reg2,
      identity.mint_identity { identities := [], total_identities := 0, total_creators := 0 }
        "u" "b" "" "img" 5 7 1 = .ok (ident2, reg2) → ident2.avatar_blob_id = none)
    ∧ identity.bind_avatar
        { id := 1, owner := 7, username := "u", bio := "b", avatar_blob_id := none,
          image_blob_id := "img", created_at := 5, is_creator := false } "" 7 =
      .ok { id := 1, owner := 7, username := "u", bio := "b", avatar_blob_id := some "",
            image_blob_id := "img", created_at := 5, is_creator := false } :=
  ⟨(c10_bind_avatar_empty_allowed
      { identities := [], total_identities := 0, total_creators := 0 } "u" "b" "img" 5 7 1
      { id := 1, owner := 7, username := "u", bio := "b", avatar_blob_id := none,
        image_blob_id := "img", created_at := 5, is_creator := false } "" rfl).1,
    (c10_bind_avatar_empty_allowed
      { identities := [], total_identities := 0, total_creators := 0 } "u" "b" "img" 5 7 1
      { id := 1, owner := 7, username := "u", bio := "b", avatar_blob_id := none,
        image_blob_id := "img", created_at := 5, is_creator := false } "" rfl).2.1⟩

/-- A key whose `contains` check fails is not among the keys of the table. -/
theorem not_mem_of_contains_false {α : Type} (t : List (Nat × α)) (k : Nat)
    (h : table.contains t k = false) : k ∉ t.map Prod.fst := by
  intro hmem
  rw [List.mem_map] at hmem
  obtain ⟨⟨a, b2⟩, hab, he⟩ := hmem
  rw [table.contains, List.any_eq_false] at h
  exact h _ hab (by simpa using he)

/-- Success equation for `mint_identity`: the sender was absent and the new
registry conses the sender's entry onto the old table. -/
theorem mint_identity_ok_inv (r : IdentityRegistry) (u b a i : String)
    (now sender fid : Nat) (ident : Identity) (r2 : IdentityRegistry)
    (h : identity.mint_identity r u b a i now sender fid = .ok (ident, r2)) :
    table.contains r.identities sender = false ∧
    r2.identities = (sender, fid) :: r.identities := by
  by_cases hc : table.contains r.identities sender = true
  · simp [identity.mint_identity, hc, throw_eq_error, error_bind] at h
  · by_cases hi : String.isEmpty i = true
    · simp [identity.mint_identity, hc, hi, Bool.not_eq_true, throw_eq_error, error_bind,
        ok_bind] at h
    · simp only [identity.mint_identity, hc, hi, Bool.not_eq_true, Bool.false_eq_true,
        if_false, ok_bind, throw_eq_error, error_bind, u64_add, pure_eq_ok] at h
      split at h
      · simp only [ok_bind, Except.ok.injEq, Prod.mk.injEq] at h
        refine ⟨by simpa using hc, ?_⟩
        rw [← h.2]
        rfl
      · simp only [error_bind] at h
        exact absurd h (by simp)

/-- The reachable states of the `IdentityRegistry`: the published initial
registry, followed by any sequence of successful `mint_identity` and
`increment_creator_count` calls (the only operations of the module that touch
the registry). -/
inductive identityRegistryReachable : IdentityRegistry → Prop where
  | init : identityRegistryReachable
      { identities := [], total_identities := 0, total_creators := 0 }
  | mint (r : IdentityRegistry) (u b a i : String) (now sender fid : Nat)
      (ident : Identity) (r2 : IdentityRegistry) :
      identityRegistryReachable r →
      identity.mint_identity r u b a i now sender fid = .ok (ident, r2) →
      identityRegistryReachable r2
  | promote (r r2 : IdentityRegistry) : identityRegistryReachable r →
      identity.increment_creator_count r = .ok r2 →
      identityRegistryReachable r2

/-- C6: if the identity registry already holds an entry for the sender,
`mint_identity` aborts with `EIdentityAlreadyExists` (so, the transaction
rolling back, the registry is unchanged); and in every reachable registry
state each principal appears at most once in the principal → identity
table. -/
theorem c6_register_at_most_once :
    (∀ (r : IdentityRegistry) (u b a i : String) (now sender fid : Nat),
      table.contains r.identities sender = true →
      identity.mint_identity r u b a i now sender fid =
        .error (.abort identity.EIdentityAlreadyExists))
    ∧ (∀ r : IdentityRegistry, identityRegistryReachable r →
        (r.identities.map Prod.fst).Nodup) := by
  constructor
  · intro r u b a i now sender fid hc
    simp [identity.mint_identity, hc, throw_eq_error, error_bind]
  · intro r hr
    induction hr with
    | init => simp
    | mint r u b a i now sender fid ident r2 _ hok ih =>
      obtain ⟨habs, heq⟩ := mint_identity_ok_inv r u b a i now sender fid ident r2 hok
      rw [heq]
      simp only [List.map_cons, List.nodup_cons]
      exact ⟨not_mem_of_contains_false _ _ habs, ih⟩
    | promote r r2 _ hok ih =>
      have : r2.identities = r.identities := by
        simp only [identity.increment_creator_count, u64_add, ok_bind, pure_eq_ok] at hok
        split at hok
        · simp only [ok_bind, Except.ok.injEq] at hok
          rw [← hok]
        · simp only [error_bind] at hok
          exact absurd hok (by simp)
      rw [this]
      exact ih

/-- Witness for C6: a second registration by principal 7 is refused, and the
registry reached by one successful registration has no duplicate
principal. -/
theorem c6_register_at_most_once_witness :
    identity.mint_identity
      { identities := [(7, 1)], total_identities := 1, total_creators := 0 }
      "u" "b" "" "img" 5 7 2 = .error (.abort identity.EIdentityAlreadyExists) ∧
    (({ identities := [(7, 1)], total_identities := 1,
        total_creators := 0 } : IdentityRegistry).identities.map Prod.fst).Nodup :=
  ⟨c6_register_at_most_once.1
      { identities := [(7, 1)], total_identities := 1, total_creators := 0 }
      "u" "b" "" "img" 5 7 2 (by decide),
    c6_register_at_most_once.2 _
      (identityRegistryReachable.mint
        { identities := [], total_identities := 0, total_creators := 0 }
        "u" "b" "" "img" 5 7 1
        { id := 1, owner := 7, username := "u", bio := "b", avatar_blob_id := none,
          image_blob_id := "img", created_at := 5, is_creator := false }
        { identities := [(7, 1)], total_identities := 1, total_creators := 0 }
        identityRegistryReachable.init rfl)⟩

/-- A key whose `contains` check succeeds has a value under `borrow`. -/
theorem borrow_isSome_of_contains {α : Type} (t : List (Nat × α)) (k : Nat)
    (h : table.contains t k = true) : ∃ v, table.borrow t k = some v := by
  rw [table.contains, List.any_eq_true] at h
  have hs : (t.find? (fun p => p.1 == k)).isSome := by
    rw [List.find?_isSome]
    exact h
  obtain ⟨p, hp⟩ := Option.isSome_iff_exists.mp hs
  exact ⟨p.2, by simp [table.borrow, hp]⟩

/-- One step of `borrow` on a cons cell. -/
theorem borrow_cons {α : Type} (a : Nat) (b : α) (rest : List (Nat × α)) (k : Nat) :
    table.borrow ((a, b) :: rest) k = if a == k then some b else table.borrow rest k := by
  by_cases h : (a == k) = true <;> simp [table.borrow, List.find?, h]

/-- One step of `modify` on a cons cell. -/
theorem modify_cons {α : Type} (a : Nat) (b : α) (rest : List (Nat × α)) (k : Nat)
    (f : α → α) :
    table.modify ((a, b) :: rest) k f =
      (if a == k then (a, f b) else (a, b)) :: table.modify rest k f := rfl

/-- One step of `contains` on a cons cell. -/
theorem contains_cons {α : Type} (a : Nat) (b : α) (rest : List (Nat × α)) (k : Nat) :
    table.contains ((a, b) :: rest) k = ((a == k) || table.contains rest k) := by
  simp [table.contains]

/-- `borrow` after `modify` at the same key returns the rewritten value. -/
theorem borrow_modify_self {α : Type} (t : List (Nat × α)) (k : Nat) (f : α → α) (v : α)
    (h : table.borrow t k = some v) :
    table.borrow (table.modify t k f) k = some (f v) := by
  induction t with
  | nil => simp [table.borrow] at h
  | cons p rest ih =>
    rcases p with ⟨a, b⟩
    by_cases hk : (a == k) = true
    · simp [borrow_cons, hk] at h
      simp [modify_cons, borrow_cons, hk, h]
    · have hk2 : (a == k) = false := by simpa using hk
      simp only [borrow_cons, hk2, Bool.false_eq_true, if_false] at h
      simp only [modify_cons, hk2, Bool.false_eq_true, if_false, borrow_cons]
      exact ih h

/-- `modify` does not change the key set seen by `contains`. -/
theorem contains_modify {α : Type} (t : List (Nat × α)) (k k2 : Nat) (f : α → α) :
    table.contains (table.modify t k f) k2 = table.contains t k2 := by
  induction t with
  | nil => rfl
  | cons p rest ih =>
    rcases p with ⟨a, b⟩
    by_cases hk : (a == k) = true
    · simp [modify_cons, contains_cons, hk, ih]
    · have hk2 : (a == k) = false := by simpa using hk
      simp [modify_cons, contains_cons, hk2, ih]

/-- If `(sid, sender)` is not in the nested index, then after the guarded
outer-level insertion the inner table still lacks `sender`. -/
theorem inner_absent_of_not_subscribed (registry : SubscriptionRegistry) (sender sid : Nat)
    (hnotsub : subscription.is_subscribed_internal registry sender sid = false) :
    table.contains
      ((table.borrow (if !(table.contains registry.subscriptions sid) then
        table.add registry.subscriptions sid [] else registry.subscriptions) sid).getD [])
      sender = false := by
  by_cases houter : table.contains registry.subscriptions sid = true
  · obtain ⟨inner, hb⟩ := borrow_isSome_of_contains _ _ houter
    rw [subscription.is_subscribed_internal, houter] at hnotsub
    simp only [Bool.not_true, Bool.false_eq_true, if_false, hb] at hnotsub
    rw [houter]
    simp only [Bool.not_true, Bool.false_eq_true, if_false, hb, Option.getD_some]
    exact hnotsub
  · have houter2 : table.contains registry.subscriptions sid = false := by
      simpa using houter
    rw [houter2]
    simp only [Bool.not_false, if_true, table.add]
    rw [borrow_cons]
    simp [table.contains]

/-- Success equation for `subscribe`, under the four functional preconditions
of the source (caller owns the identity, avatar bound, not yet subscribed,
payment sufficient) and no-`u64`-overflow side conditions. -/
theorem subscribe_ok (registry : SubscriptionRegistry) (fan_registry : FanRegistry)
    (sp : Space) (ident : Identity) (payment duration_days now sender fresh_id : Nat)
    (av : String)
    (hown : ident.owner = sender)
    (hav : ident.avatar_blob_id = some av)
    (hnotsub : subscription.is_subscribed_internal registry sender sp.id = false)
    (hprice : sp.subscription_price * duration_days ≤ U64_MAX)
    (hpay : sp.subscription_price * duration_days ≤ payment)
    (hext : duration_days * subscription.ONE_DAY_MS ≤ U64_MAX)
    (hexp : now + duration_days * subscription.ONE_DAY_MS ≤ U64_MAX)
    (htot : registry.total_subscriptions + 1 ≤ U64_MAX)
    (hact : registry.active_subscriptions + 1 ≤ U64_MAX) :
    subscription.subscribe registry fan_registry sp ident payment duration_days now sender
        fresh_id =
      .ok ({ id := fresh_id, space_id := sp.id, subscriber := sender, subscribed_at := now,
             expires_at := now + duration_days * subscription.ONE_DAY_MS,
             duration_days := duration_days },
           sp.subscription_price * duration_days,
           payment - sp.subscription_price * duration_days,
           { registry with
             subscriptions :=
               table.modify
                 (if !(table.contains registry.subscriptions sp.id) then
                   table.add registry.subscriptions sp.id []
                 else registry.subscriptions)
                 sp.id (fun inner => table.add inner sender fresh_id),
             total_subscriptions := registry.total_subscriptions + 1,
             active_subscriptions := registry.active_subscriptions + 1 },
           space.add_fan_avatar fan_registry sp sender av) := by
  have hinner := inner_absent_of_not_subscribed registry sender sp.id hnotsub
  simp only [subscription.subscribe, space.subscription_price, hown, bne_self_eq_false,
    Bool.false_eq_true, if_false, hav, Option.isSome_some, Bool.not_true,
    u64_mul_ok hprice, u64_mul_ok hext, u64_add_ok hexp, u64_add_ok htot, u64_add_ok hact,
    ok_bind, Nat.not_lt.mpr hpay, hnotsub, destroy_some, hinner, pure_eq_ok,
    throw_eq_error, error_bind]

/-- C3: a successful `subscribe` charges exactly
`space.subscription_price × duration_days`, returns change
`payment − price`, and produces `expires_at = now + duration_days × ONE_DAY`;
concretely, with price 100 and 5 days, paying 500 yields change 0 and paying
700 yields change 200, and `duration_days = 0` is allowed, yielding a
zero-cost grant with `expires_at = now`. (Overflow side conditions added for
the `u64` arithmetic.) -/
theorem c3_subscribe_pricing (registry : SubscriptionRegistry) (fan_registry : FanRegistry)
    (sp : Space) (ident : Identity) (payment duration_days now sender fresh_id : Nat)
    (av : String)
    (hown : ident.owner = sender)
    (hav : ident.avatar_blob_id = some av)
    (hnotsub : subscription.is_subscribed_internal registry sender sp.id = false)
    (hprice : sp.subscription_price * duration_days ≤ U64_MAX)
    (hpay : sp.subscription_price * duration_days ≤ payment)
    (hext : duration_days * subscription.ONE_DAY_MS ≤ U64_MAX)
    (hexp : now + duration_days * subscription.ONE_DAY_MS ≤ U64_MAX)
    (htot : registry.total_subscriptions + 1 ≤ U64_MAX)
    (hact : registry.active_subscriptions + 1 ≤ U64_MAX) :
    (∃ (s : Subscription) (r2 : SubscriptionRegistry) (fr2 : FanRegistry),
      subscription.subscribe registry fan_registry sp ident payment duration_days now sender
          fresh_id =
        .ok (s, sp.subscription_price * duration_days,
          payment - sp.subscription_price * duration_days, r2, fr2) ∧
      s.expires_at = now + duration_days * subscription.ONE_DAY_MS ∧
      s.subscribed_at = now)
    ∧ subscription.subscribe
        { subscriptions := [], total_subscriptions := 0, active_subscriptions := 0 }
        { fans := [] }
        { id := 1, name := "n", description := "d", cover_image := "c", config_quilt := "q",
          video_blob_ids := [], subscription_price := 100, creator := 9,
          marketplace_kiosk_id := 3, created_at := 0, updated_at := 0 }
        { id := 5, owner := 7, username := "u", bio := "b", avatar_blob_id := some "av",
          image_blob_id := "i", created_at := 0, is_creator := false }
        500 5 1000 7 99 =
      .ok ({ id := 99, space_id := 1, subscriber := 7, subscribed_at := 1000,
             expires_at := 1000 + 5 * subscription.ONE_DAY_MS, duration_days := 5 },
           500, 0,
           { subscriptions := [(1, [(7, 99)])], total_subscriptions := 1,
             active_subscriptions := 1 },
           { fans := [(1, [(7, { owner := 7, avatar_blob_id := "av" })])] })
    ∧ subscription.subscribe
        { subscriptions := [], total_subscriptions := 0, active_subscriptions := 0 }
        { fans := [] }
        { id := 1, name := "n", description := "d", cover_image := "c", config_quilt := "q",
          video_blob_ids := [], subscription_price := 100, creator := 9,
          marketplace_kiosk_id := 3, created_at := 0, updated_at := 0 }
        { id := 5, owner := 7, username := "u", bio := "b", avatar_blob_id := some "av",
          image_blob_id := "i", created_at := 0, is_creator := false }
        700 5 1000 7 99 =
      .ok ({ id := 99, space_id := 1, subscriber := 7, subscribed_at := 1000,
             expires_at := 1000 + 5 * subscription.ONE_DAY_MS, duration_days := 5 },
           500, 200,
           { subscriptions := [(1, [(7, 99)])], total_subscriptions := 1,
             active_subscriptions := 1 },
           { fans := [(1, [(7, { owner := 7, avatar_blob_id := "av" })])] })
    ∧ subscription.subscribe
        { subscriptions := [], total_subscriptions := 0, active_subscriptions := 0 }
        { fans := [] }
        { id := 1, name := "n", description := "d", cover_image := "c", config_quilt := "q",
          video_blob_ids := [], subscription_price := 100, creator := 9,
          marketplace_kiosk_id := 3, created_at := 0, updated_at := 0 }
        { id := 5, owner := 7, username := "u", bio := "b", avatar_blob_id := some "av",
          image_blob_id := "i", created_at := 0, is_creator := false }
        0 0 1000 7 99 =
      .ok ({ id := 99, space_id := 1, subscriber := 7, subscribed_at := 1000,
             expires_at := 1000, duration_days := 0 },
           0, 0,
           { subscriptions := [(1, [(7, 99)])], total_subscriptions := 1,
             active_subscriptions := 1 },
           { fans := [(1, [(7, { owner := 7, avatar_blob_id := "av" })])] }) := by
  refine ⟨⟨_, _, _, subscribe_ok registry fan_registry sp ident payment duration_days now
    sender fresh_id av hown hav hnotsub hprice hpay hext hexp htot hact, rfl, rfl⟩,
    ?_, ?_, ?_⟩ <;> rfl

/-- Witness for C3 at fresh concrete inputs: price 10 per day, 3 days,
paying 45 charges 30 and returns 15 change. -/
theorem c3_subscribe_pricing_witness :
    ∃ (s : Subscription) (r2 : SubscriptionRegistry) (fr2 : FanRegistry),
      subscription.subscribe
        { subscriptions := [], total_subscriptions := 4, active_subscriptions := 2 }
        { fans := [] }
        { id := 2, name := "n", description := "d", cover_image := "c", config_quilt := "q",
          video_blob_ids := [], subscription_price := 10, creator := 9,
          marketplace_kiosk_id := 3, created_at := 0, updated_at := 0 }
        { id := 5, owner := 8, username := "u", bio := "b", avatar_blob_id := some "a3",
          image_blob_id := "i", created_at := 0, is_creator := false }
        45 3 2000 8 42 =
      .ok (s, 10 * 3, 45 - 10 * 3, r2, fr2) ∧
      s.expires_at = 2000 + 3 * subscription.ONE_DAY_MS ∧
      s.subscribed_at = 2000 :=
  (c3_subscribe_pricing
    { subscriptions := [], total_subscriptions := 4, active_subscriptions := 2 }
    { fans := [] }
    { id := 2, name := "n", description := "d", cover_image := "c", config_quilt := "q",
      video_blob_ids := [], subscription_price := 10, creator := 9,
      marketplace_kiosk_id := 3, created_at := 0, updated_at := 0 }
    { id := 5, owner := 8, username := "u", bio := "b", avatar_blob_id := some "a3",
      image_blob_id := "i", created_at := 0, is_creator := false }
    45 3 2000 8 42 "a3" rfl rfl rfl (by decide) (by decide) (by decide) (by decide)
    (by decide) (by decide)).1

/-- Inversion for `subscribe`: whenever it succeeds, the returned registry's
nested index is the original one with `(space, sender) ↦ fresh_id` inserted,
and the returned subscription names the sender and the space. -/
theorem subscribe_ok_subscriptions (registry : SubscriptionRegistry)
    (fan_registry : FanRegistry) (sp : Space) (ident : Identity)
    (payment duration_days now sender fresh_id : Nat)
    (s : Subscription) (a c : Nat) (r2 : SubscriptionRegistry) (fr2 : FanRegistry)
    (h : subscription.subscribe registry fan_registry sp ident payment duration_days now
      sender fresh_id = .ok (s, a, c, r2, fr2)) :
    r2.subscriptions =
      table.modify
        (if !(table.contains registry.subscriptions sp.id) then
          table.add registry.subscriptions sp.id []
        else registry.subscriptions)
        sp.id (fun inner => table.add inner sender fresh_id) ∧
    s.subscriber = sender ∧ s.space_id = sp.id := by
  by_cases hOwn : (ident.owner != sender) = true
  · simp [subscription.subscribe, hOwn, throw_eq_error, error_bind] at h
  · have hOwn2 : (ident.owner != sender) = false := by simpa using hOwn
    rcases hAv : ident.avatar_blob_id with _ | av
    · simp [subscription.subscribe, hOwn2, hAv, throw_eq_error, error_bind, ok_bind,
        pure_eq_ok] at h
    · by_cases hSub : subscription.is_subscribed_internal registry sender sp.id = true
      · simp [subscription.subscribe, hOwn2, hAv, hSub, throw_eq_error, error_bind,
          ok_bind, pure_eq_ok] at h
      · have hSub2 : subscription.is_subscribed_internal registry sender sp.id = false := by
          simpa using hSub
        have hinner := inner_absent_of_not_subscribed registry sender sp.id hSub2
        have hinner2 : table.contains
            ((table.borrow (if table.contains registry.subscriptions sp.id = false then
              table.add registry.subscriptions sp.id [] else registry.subscriptions)
              sp.id).getD []) sender = false := by
          simpa using hinner
        by_cases hP : sp.subscription_price * duration_days ≤ U64_MAX
        · by_cases hPay : payment < sp.subscription_price * duration_days
          · simp [subscription.subscribe, space.subscription_price, hOwn2, hAv, hSub2,
              u64_mul_ok hP, hPay, throw_eq_error, error_bind, ok_bind, pure_eq_ok] at h
          · by_cases hE : duration_days * subscription.ONE_DAY_MS ≤ U64_MAX
            · by_cases hN : now + duration_days * subscription.ONE_DAY_MS ≤ U64_MAX
              · by_cases hT : registry.total_subscriptions + 1 ≤ U64_MAX
                · by_cases hA : registry.active_subscriptions + 1 ≤ U64_MAX
                  · have hOwn3 : ident.owner = sender := by simpa using hOwn2
                    rw [subscribe_ok registry fan_registry sp ident payment duration_days
                      now sender fresh_id av hOwn3 hAv hSub2 hP (Nat.not_lt.mp hPay)
                      hE hN hT hA] at h
                    rw [Except.ok.injEq, Prod.mk.injEq, Prod.mk.injEq, Prod.mk.injEq,
                      Prod.mk.injEq] at h
                    obtain ⟨hs, -, -, hr2, -⟩ := h
                    refine ⟨?_, ?_, ?_⟩
                    · rw [← hr2]
                    · rw [← hs]
                    · rw [← hs]
                  · simp [subscription.subscribe, space.subscription_price, hOwn2, hAv,
                      hSub2, u64_mul, u64_add, hP, hPay, hE, hN, hT, hA, hinner2,
                      destroy_some, throw_eq_error, error_bind, ok_bind, pure_eq_ok] at h
                · simp [subscription.subscribe, space.subscription_price, hOwn2, hAv,
                    hSub2, u64_mul, u64_add, hP, hPay, hE, hN, hT, hinner2,
                    destroy_some, throw_eq_error, error_bind, ok_bind, pure_eq_ok] at h
              · simp [subscription.subscribe, space.subscription_price, hOwn2, hAv,
                  hSub2, u64_mul, u64_add, hP, hPay, hE, hN, throw_eq_error, error_bind,
                  ok_bind, pure_eq_ok] at h
            · simp [subscription.subscribe, space.subscription_price, hOwn2, hAv, hSub2,
                u64_mul, u64_add, hP, hPay, hE, throw_eq_error, error_bind, ok_bind,
                pure_eq_ok] at h
        · simp [subscription.subscribe, space.subscription_price, hOwn2, hAv, hSub2,
            u64_mul, hP, throw_eq_error, error_bind, ok_bind, pure_eq_ok] at h

/-- A `borrow` hit implies a `contains` hit. -/
theorem contains_of_borrow_some {α : Type} (t : List (Nat × α)) (k : Nat) (v : α)
    (h : table.borrow t k = some v) : table.contains t k = true := by
  rw [table.borrow] at h
  rcases hf : t.find? (fun p => p.1 == k) with _ | p
  · rw [hf] at h
    simp at h
  · rw [table.contains, List.any_eq_true]
    have hpred := List.find?_some hf
    exact ⟨p, List.mem_of_find?_eq_some hf, by simpa using hpred⟩

/-- After the guarded two-level insertion of `(sid, sender) ↦ fid`, the
existence check reads true. -/
theorem is_subscribed_internal_inserted (r2 : SubscriptionRegistry)
    (t : List (Nat × List (Nat × Nat))) (sid sender fid : Nat)
    (h2 : r2.subscriptions =
      table.modify (if !(table.contains t sid) then table.add t sid [] else t) sid
        (fun inner => table.add inner sender fid)) :
    subscription.is_subscribed_internal r2 sender sid = true := by
  rw [subscription.is_subscribed_internal, h2]
  by_cases houter : table.contains t sid = true
  · obtain ⟨inner, hb⟩ := borrow_isSome_of_contains _ _ houter
    rw [houter]
    simp only [Bool.not_true, Bool.false_eq_true, if_false]
    have hc : table.contains
        (table.modify t sid (fun inner => table.add inner sender fid)) sid = true := by
      rw [contains_modify]
      exact houter
    rw [hc]
    simp only [Bool.not_true, Bool.false_eq_true, if_false]
    rw [borrow_modify_self _ _ _ _ hb]
    simp [table.contains, table.add]
  · have houter2 : table.contains t sid = false := by simpa using houter
    rw [houter2]
    simp only [Bool.not_false, if_true]
    have hb : table.borrow (table.add t sid []) sid = some [] := by
      rw [table.add, borrow_cons]
      simp
    have hc : table.contains
        (table.modify (table.add t sid []) sid (fun inner => table.add inner sender fid))
        sid = true := by
      rw [contains_modify, table.add, contains_cons]
      simp
    rw [hc]
    simp only [Bool.not_true, Bool.false_eq_true, if_false]
    rw [borrow_modify_self _ _ _ _ hb]
    simp [table.contains, table.add]

/-- C7: `is_subscribed` is a pure existence lookup in the nested index — false
whenever the pair is absent (in particular when the outer space key is
absent), true in the registry produced by any successful `subscribe` for that
pair, and independent of the clock argument; meanwhile `is_expired` becomes
true past `expires_at`, so presence persists while validity lapses. -/
theorem c7_is_subscribed_presence (registry : SubscriptionRegistry)
    (fan_registry : FanRegistry) (sp : Space) (ident : Identity)
    (payment duration_days now sender fresh_id subscriber space_kiosk_id clock clock2 : Nat) :
    (table.contains registry.subscriptions space_kiosk_id = false →
      subscription.is_subscribed registry subscriber space_kiosk_id clock = false)
    ∧ (subscription.is_subscribed registry subscriber space_kiosk_id clock = true ↔
        ∃ inner, table.borrow registry.subscriptions space_kiosk_id = some inner ∧
          table.contains inner subscriber = true)
    ∧ subscription.is_subscribed registry subscriber space_kiosk_id clock =
        subscription.is_subscribed registry subscriber space_kiosk_id clock2
    ∧ (∀ (s : Subscription) (a c : Nat) (r2 : SubscriptionRegistry) (fr2 : FanRegistry),
        subscription.subscribe registry fan_registry sp ident payment duration_days now
          sender fresh_id = .ok (s, a, c, r2, fr2) →
        (∀ t, subscription.is_subscribed r2 sender sp.id t = true) ∧
        (∀ t2, s.expires_at < t2 → subscription.is_expired s t2 = true)) := by
  refine ⟨?_, ?_, rfl, ?_⟩
  · intro h
    rw [subscription.is_subscribed, subscription.is_subscribed_internal, h]
    simp
  · rw [subscription.is_subscribed, subscription.is_subscribed_internal]
    by_cases houter : table.contains registry.subscriptions space_kiosk_id = true
    · obtain ⟨inner, hb⟩ := borrow_isSome_of_contains _ _ houter
      rw [houter, hb]
      simp only [Bool.not_true, Bool.false_eq_true, if_false]
      constructor
      · intro h
        exact ⟨inner, rfl, h⟩
      · rintro ⟨inner2, hb2, hc2⟩
        rw [Option.some.injEq] at hb2
        rw [hb2]
        exact hc2
    · have houter2 : table.contains registry.subscriptions space_kiosk_id = false := by
        simpa using houter
      rw [houter2]
      simp only [Bool.not_false, if_true]
      constructor
      · intro h
        exact absurd h (by simp)
      · rintro ⟨inner, hb, -⟩
        exact absurd (contains_of_borrow_some _ _ _ hb) (by rw [houter2]; simp)
  · intro s a c r2 fr2 h
    obtain ⟨hr2, -, -⟩ := subscribe_ok_subscriptions registry fan_registry sp ident payment
      duration_days now sender fresh_id s a c r2 fr2 h
    constructor
    · intro t
      rw [subscription.is_subscribed]
      exact is_subscribed_internal_inserted r2 registry.subscriptions sp.id sender
        fresh_id hr2
    · intro t2 ht2
      rw [subscription.is_expired]
      simpa using ht2

/-- Witness for C7: after principal 7's concrete subscription to space 1
(expiring at 432001000), presence still reads true at a much later clock while
`is_expired` reads true. -/
theorem c7_is_subscribed_presence_witness :
    (∀ t, subscription.is_subscribed
      { subscriptions := [(1, [(7, 99)])], total_subscriptions := 1,
        active_subscriptions := 1 } 7 1 t = true) ∧
    (∀ t2, (432001000 : Nat) < t2 →
      subscription.is_expired
        { id := 99, space_id := 1, subscriber := 7, subscribed_at := 1000,
          expires_at := 432001000, duration_days := 5 } t2 = true) :=
  (c7_is_subscribed_presence
    { subscriptions := [], total_subscriptions := 0, active_subscriptions := 0 }
    { fans := [] }
    { id := 1, name := "n", description := "d", cover_image := "c", config_quilt := "q",
      video_blob_ids := [], subscription_price := 100, creator := 9,
      marketplace_kiosk_id := 3, created_at := 0, updated_at := 0 }
    { id := 5, owner := 7, username := "u", bio := "b", avatar_blob_id := some "av",
      image_blob_id := "i", created_at := 0, is_creator := false }
    500 5 1000 7 99 7 1 0 0).2.2.2
    { id := 99, space_id := 1, subscriber := 7, subscribed_at := 1000,
      expires_at := 432001000, duration_days := 5 }
    500 0
    { subscriptions := [(1, [(7, 99)])], total_subscriptions := 1,
      active_subscriptions := 1 }
    { fans := [(1, [(7, { owner := 7, avatar_blob_id := "av" })])] }
    rfl

/-- Counterexample to C4 as stated: principal 7 already has an entry for
space 2 in the nested index, but their identity has no bound avatar, so
`subscribe` aborts with `ENoAvatar` (checked earlier), not
`EAlreadySubscribed`. -/
theorem c4_subscribe_existing_entry_counterexample :
    subscription.subscribe
      { subscriptions := [(2, [(7, 55)])], total_subscriptions := 1,
        active_subscriptions := 1 }
      { fans := [] }
      { id := 2, name := "n", description := "d", cover_image := "c", config_quilt := "q",
        video_blob_ids := [], subscription_price := 100, creator := 9,
        marketplace_kiosk_id := 3, created_at := 0, updated_at := 0 }
      { id := 5, owner := 7, username := "u", bio := "b", avatar_blob_id := none,
        image_blob_id := "i", created_at := 0, is_creator := false }
      100000 5 0 7 9 = .error (.abort subscription.ENoAvatar) ∧
    subscription.ENoAvatar ≠ subscription.EAlreadySubscribed :=
  ⟨rfl, by decide⟩

/-- C4 (amended): when `(space, sender)` already has an entry in the nested
index — active or lapsed — `subscribe` never succeeds, so there is no
re-subscription path; and whenever the identity-ownership and avatar checks
(which the source evaluates first) pass, the abort code is exactly
`EAlreadySubscribed`. A failed call aborts the transaction, leaving all state
unchanged. -/
theorem c4_subscribe_existing_entry_blocks (registry : SubscriptionRegistry)
    (fan_registry : FanRegistry) (sp : Space) (ident : Identity)
    (payment duration_days now sender fresh_id : Nat)
    (hsub : subscription.is_subscribed_internal registry sender sp.id = true) :
    (∀ result, subscription.subscribe registry fan_registry sp ident payment duration_days
      now sender fresh_id ≠ .ok result)
    ∧ (ident.owner = sender → ident.avatar_blob_id.isSome = true →
        subscription.subscribe registry fan_registry sp ident payment duration_days now
          sender fresh_id = .error (.abort subscription.EAlreadySubscribed)) := by
  constructor
  · intro result
    by_cases hOwn : (ident.owner != sender) = true
    · simp [subscription.subscribe, hOwn, throw_eq_error, error_bind]
    · have hOwn2 : (ident.owner != sender) = false := by simpa using hOwn
      rcases hAv : ident.avatar_blob_id with _ | av
      · simp [subscription.subscribe, hOwn2, hAv, throw_eq_error, error_bind, ok_bind,
          pure_eq_ok]
      · simp [subscription.subscribe, hOwn2, hAv, hsub, throw_eq_error, error_bind,
          ok_bind, pure_eq_ok]
  · intro hown hav
    simp [subscription.subscribe, hown, hav, hsub, bne_self_eq_false, throw_eq_error,
      error_bind, ok_bind, pure_eq_ok]

/-- Witness for C4 (amended): the lapsed-or-active entry `(2, 7)` blocks a
fresh `subscribe` by 7 with `EAlreadySubscribed` when the earlier checks
pass. -/
theorem c4_subscribe_existing_entry_blocks_witness :
    subscription.subscribe
      { subscriptions := [(2, [(7, 55)])], total_subscriptions := 1,
        active_subscriptions := 1 }
      { fans := [] }
      { id := 2, name := "n", description := "d", cover_image := "c", config_quilt := "q",
        video_blob_ids := [], subscription_price := 100, creator := 9,
        marketplace_kiosk_id := 3, created_at := 0, updated_at := 0 }
      { id := 5, owner := 7, username := "u", bio := "b", avatar_blob_id := some "a",
        image_blob_id := "i", created_at := 0, is_creator := false }
      100000 5 0 7 9 = .error (.abort subscription.EAlreadySubscribed) :=
  (c4_subscribe_existing_entry_blocks
    { subscriptions := [(2, [(7, 55)])], total_subscriptions := 1,
      active_subscriptions := 1 }
    { fans := [] }
    { id := 2, name := "n", description := "d", cover_image := "c", config_quilt := "q",
      video_blob_ids := [], subscription_price := 100, creator := 9,
      marketplace_kiosk_id := 3, created_at := 0, updated_at := 0 }
    { id := 5, owner := 7, username := "u", bio := "b", avatar_blob_id := some "a",
      image_blob_id := "i", created_at := 0, is_creator := false }
    100000 5 0 7 9 rfl).2 rfl rfl

/-- Counterexample to C8 as stated: payment 0 is below the price 500, but
principal 7 is already subscribed, so `subscribe` aborts with
`EAlreadySubscribed` (checked earlier), not `EInsufficientPayment`. -/
theorem c8_insufficient_payment_counterexample :
    subscription.subscribe
      { subscriptions := [(1, [(7, 55)])], total_subscriptions := 1,
        active_subscriptions := 1 }
      { fans := [] }
      { id := 1, name := "n", description := "d", cover_image := "c", config_quilt := "q",
        video_blob_ids := [], subscription_price := 100, creator := 9,
        marketplace_kiosk_id := 3, created_at := 0, updated_at := 0 }
      { id := 5, owner := 7, username := "u", bio := "b", avatar_blob_id := some "a",
        image_blob_id := "i", created_at := 0, is_creator := false }
      0 5 0 7 9 = .error (.abort subscription.EAlreadySubscribed) ∧
    (0 : Nat) < 100 * 5 ∧
    subscription.EAlreadySubscribed ≠ subscription.EInsufficientPayment :=
  ⟨rfl, by decide, by decide⟩

/-- C8 (amended): with `payment < price × duration_days` a `subscribe` call
can never succeed — the abort rolls the transaction back, so no entry,
counter, fan-registry record or payment split survives — and when the three
earlier checks (identity ownership, avatar, not-already-subscribed) pass and
the price multiplication fits in `u64`, the abort code is exactly
`EInsufficientPayment`. -/
theorem c8_insufficient_payment_rejected (registry : SubscriptionRegistry)
    (fan_registry : FanRegistry) (sp : Space) (ident : Identity)
    (payment duration_days now sender fresh_id : Nat)
    (hlt : payment < sp.subscription_price * duration_days) :
    (∀ result, subscription.subscribe registry fan_registry sp ident payment duration_days
      now sender fresh_id ≠ .ok result)
    ∧ (ident.owner = sender → ident.avatar_blob_id.isSome = true →
        subscription.is_subscribed_internal registry sender sp.id = false →
        sp.subscription_price * duration_days ≤ U64_MAX →
        subscription.subscribe registry fan_registry sp ident payment duration_days now
          sender fresh_id = .error (.abort subscription.EInsufficientPayment)) := by
  constructor
  · intro result
    by_cases hOwn : (ident.owner != sender) = true
    · simp [subscription.subscribe, hOwn, throw_eq_error, error_bind]
    · have hOwn2 : (ident.owner != sender) = false := by simpa using hOwn
      rcases hAv : ident.avatar_blob_id with _ | av
      · simp [subscription.subscribe, hOwn2, hAv, throw_eq_error, error_bind, ok_bind,
          pure_eq_ok]
      · by_cases hSub : subscription.is_subscribed_internal registry sender sp.id = true
        · simp [subscription.subscribe, hOwn2, hAv, hSub, throw_eq_error, error_bind,
            ok_bind, pure_eq_ok]
        · have hSub2 : subscription.is_subscribed_internal registry sender sp.id
              = false := by simpa using hSub
          by_cases hP : sp.subscription_price * duration_days ≤ U64_MAX
          · simp [subscription.subscribe, space.subscription_price, hOwn2, hAv, hSub2,
              u64_mul_ok hP, hlt, throw_eq_error, error_bind, ok_bind, pure_eq_ok]
          · simp [subscription.subscribe, space.subscription_price, hOwn2, hAv, hSub2,
              u64_mul, hP, throw_eq_error, error_bind, ok_bind, pure_eq_ok]
  · intro hown hav hnotsub hP
    simp [subscription.subscribe, space.subscription_price, hown, hav, hnotsub,
      bne_self_eq_false, u64_mul_ok hP, hlt, throw_eq_error, error_bind, ok_bind,
      pure_eq_ok]

/-- Witness for C8 (amended): paying 499 for 5 days at price 100 is refused
with `EInsufficientPayment`. -/
theorem c8_insufficient_payment_rejected_witness :
    subscription.subscribe
      { subscriptions := [], total_subscriptions := 0, active_subscriptions := 0 }
      { fans := [] }
      { id := 1, name := "n", description := "d", cover_image := "c", config_quilt := "q",
        video_blob_ids := [], subscription_price := 100, creator := 9,
        marketplace_kiosk_id := 3, created_at := 0, updated_at := 0 }
      { id := 5, owner := 7, username := "u", bio := "b", avatar_blob_id := some "a",
        image_blob_id := "i", created_at := 0, is_creator := false }
      499 5 0 7 9 = .error (.abort subscription.EInsufficientPayment) :=
  (c8_insufficient_payment_rejected
    { subscriptions := [], total_subscriptions := 0, active_subscriptions := 0 }
    { fans := [] }
    { id := 1, name := "n", description := "d", cover_image := "c", config_quilt := "q",
      video_blob_ids := [], subscription_price := 100, creator := 9,
      marketplace_kiosk_id := 3, created_at := 0, updated_at := 0 }
    { id := 5, owner := 7, username := "u", bio := "b", avatar_blob_id := some "a",
      image_blob_id := "i", created_at := 0, is_creator := false }
    499 5 0 7 9 (by decide)).2 rfl rfl rfl (by decide)
